import Mathlib

/-!
Shallow embedding of the e-commerce backend (Express + MySQL) under
verification: products, orders and order items as relational rows, the
route handlers as pure state-passing functions, the connection-loss and
file-system faults as explicit environment parameters.
-/

namespace Ecom

/-- Error outcomes of the API routes: 400 for missing input, 404 for a
missing row, 400 for a status outside the enum, 500 for a storage or
file-system fault surfaced by a route's catch block. -/
inductive ApiError where
  | InvalidInput
  | NotFound
  | InvalidStatus
  | InternalFailure
deriving DecidableEq

/-- A JavaScript request-body value as the routes see it: absent field,
explicit null, string, finite number (modelled exactly as a rational) or
NaN. -/
inductive JsValue where
  | undefined
  | null
  | str (s : String)
  | num (q : ℚ)
  | nan
deriving DecidableEq

/-- JavaScript truthiness, used by the validation checks written with
the bang and or-or operators in the routes. -/
def truthy : JsValue → Bool
  | .undefined => false
  | .null => false
  | .str s => !(s == "")
  | .num q => !(q == 0)
  | .nan => false

/-- JavaScript string conversion, used where a request value is bound
into an SQL text column. -/
def storeString : JsValue → String
  | .str s => s
  | .num q => toString q
  | .nan => "NaN"
  | .null => "null"
  | .undefined => "undefined"

/-- Conversion of a present request value to a nullable text column:
null becomes SQL NULL, anything else its string form. -/
def jsToOptStr : JsValue → Option String
  | .null => none
  | .undefined => none
  | v => some (storeString v)

/-- Longest leading run of decimal digits of a character list, together
with the rest of the list. -/
def takeDigits : List Char → List Nat × List Char
  | [] => ([], [])
  | c :: rest =>
    if c.isDigit then
      let (ds, r) := takeDigits rest
      ((c.toNat - 48) :: ds, r)
    else ([], c :: rest)

/-- Value of a digit list read most-significant first. -/
def natOfDigits (ds : List Nat) : Nat := ds.foldl (fun a d => a * 10 + d) 0

/-- Optional leading sign of a character list. -/
def takeSign : List Char → Int × List Char
  | '-' :: rest => (-1, rest)
  | '+' :: rest => (1, rest)
  | cs => (1, cs)

/-- The numeric prefix a JavaScript parseFloat call reads from a string:
optional sign, integer digits, optional point and fraction digits;
none when no digit is found, which parseFloat reports as NaN. -/
def parseFloatStr (s : String) : Option ℚ :=
  let (sgn, cs) := takeSign s.toList
  let (ip, cs1) := takeDigits cs
  let fp :=
    match cs1 with
    | '.' :: rest => (takeDigits rest).1
    | _ => []
  if ip.isEmpty && fp.isEmpty then none
  else
    some ((sgn : ℚ) * ((natOfDigits ip : ℚ) + (natOfDigits fp : ℚ) / ((10 : ℚ) ^ fp.length)))

/-- The integer prefix a JavaScript parseInt call reads from a string:
optional sign then digits; none when no digit is found (NaN). -/
def parseIntStr (s : String) : Option Int :=
  let (sgn, cs) := takeSign s.toList
  let (ds, _) := takeDigits cs
  if ds.isEmpty then none else some (sgn * (natOfDigits ds : Int))

/-- parseFloat applied to a request value; none stands for NaN. -/
def jsParseFloat : JsValue → Option ℚ
  | .num q => some q
  | .str s => parseFloatStr s
  | _ => none

/-- parseInt applied to a request value; none stands for NaN; a finite
number is truncated toward zero as JavaScript does. -/
def jsParseInt : JsValue → Option Int
  | .num q => some (Int.tdiv q.num (q.den : Int))
  | .str s => parseIntStr s
  | _ => none

/-- Row of the products table. -/
structure Product where
  id : Nat
  name : String
  description : Option String
  price : ℚ
  stock : Int
  image_url : Option String
deriving DecidableEq

/-- Row of the orders table. -/
structure Order where
  id : Nat
  order_number : String
  customer_name : String
  customer_phone : String
  customer_email : Option String
  customer_address : String
  notes : Option String
  payment_method : String
  status : String
  subtotal : ℚ
  shipping : ℚ
  total : ℚ
deriving DecidableEq

/-- Row of the order_items table. -/
structure OrderItem where
  id : Nat
  order_id : Nat
  product_id : Nat
  product_name : String
  product_price : ℚ
  quantity : Int
  total : ℚ
deriving DecidableEq

/-- The relational store: the three tables and their auto-increment
counters. -/
structure DB where
  products : List Product
  orders : List Order
  order_items : List OrderItem
  productAI : Nat
  orderAI : Nat
  itemAI : Nat
deriving DecidableEq

/-- The image directory: the set of present files, plus a fault model
telling which unlink calls throw. -/
structure FS where
  files : List String
  unlinkFails : String → Bool

/-- Removal of one file from the directory. -/
def removeFile (fs : FS) (u : String) : FS :=
  { fs with files := fs.files.filter (fun f => !(f == u)) }

/-- SELECT * FROM products WHERE id = ? (first row). -/
def findProduct (db : DB) (id : Nat) : Option Product :=
  db.products.find? (fun p => p.id == id)

/-- SELECT * FROM orders WHERE id = ? (first row). -/
def findOrder (db : DB) (id : Nat) : Option Order :=
  db.orders.find? (fun o => o.id == id)

/-- GET /api/orders/:id — the order joined with its items, or 404. -/
def getOrder (db : DB) (id : Nat) : Except ApiError (Order × List OrderItem) :=
  match findOrder db id with
  | none => .error .NotFound
  | some o => .ok (o, db.order_items.filter (fun it => it.order_id == o.id))

/-- The six values of the status enum, in the order of the source. -/
def validStatuses : List String :=
  ["pending", "confirmed", "processing", "shipped", "delivered", "cancelled"]

/-- PUT /api/orders/:id/status — validates the status against the enum
first, then checks existence, then updates. -/
def setStatus (db : DB) (id : Nat) (st : String) : DB × Except ApiError String :=
  if !(validStatuses.contains st) then (db, .error .InvalidStatus)
  else
    match findOrder db id with
    | none => (db, .error .NotFound)
    | some _ =>
      ({ db with
          orders := db.orders.map (fun o => if o.id == id then { o with status := st } else o) },
       .ok st)

/-- DELETE /api/orders/:id — deletes the order row; the ON DELETE
CASCADE foreign key of order_items removes its items with it. -/
def deleteOrder (db : DB) (id : Nat) : DB × Except ApiError Order :=
  match findOrder db id with
  | none => (db, .error .NotFound)
  | some o =>
    ({ db with
        orders := db.orders.filter (fun x => !(x.id == id)),
        order_items := db.order_items.filter (fun it => !(it.order_id == id)) },
     .ok o)

/-- The startsWith test of JavaScript, computed on the character
lists. -/
def strStartsWith (s pre : String) : Bool := pre.toList.isPrefixOf s.toList

/-- The image reference of a row when it names a locally-owned asset:
a non-empty string not starting with http (the check written
image_url and not image_url.startsWith http in the source). -/
def localImageFile : Option String → Option String
  | some u => if !(u == "") && !(strStartsWith u "http") then some u else none
  | none => none

/-- The file the route would unlink: a locally-owned reference whose
file exists on disk (the existsSync guard before unlinkSync). -/
def localExistingFile (fs : FS) (img : Option String) : Option String :=
  match localImageFile img with
  | some u => if fs.files.contains u then some u else none
  | none => none

/-- Request body of POST /api/products as the route reads it; file is
the name multer gave an uploaded image, if any. -/
structure CreateProductReq where
  name : JsValue
  description : JsValue
  price : JsValue
  stock : JsValue
  image_url : JsValue
  file : Option String

/-- The row the INSERT of POST /api/products builds: uploaded filename
beats the image_url field, description defaults to the empty string,
stock to parseInt-or-zero. -/
def createdProductRow (db : DB) (req : CreateProductReq) (pr : ℚ) : Product :=
  { id := db.productAI, name := storeString req.name,
    description := some (if truthy req.description then storeString req.description else ""),
    price := pr,
    stock := (jsParseInt req.stock).getD 0,
    image_url :=
      match req.file with
      | some f => some f
      | none => if truthy req.image_url then some (storeString req.image_url) else none }

/-- POST /api/products — requires truthy name and price, derives the
image reference, coerces price with parseFloat (NaN makes the INSERT
into the DECIMAL NOT NULL column fail, caught as a 500) and stock with
parseInt-or-zero, then inserts the row. -/
def createProduct (db : DB) (req : CreateProductReq) : DB × Except ApiError Product :=
  if !(truthy req.name && truthy req.price) then (db, .error .InvalidInput)
  else
    match jsParseFloat req.price with
    | none => (db, .error .InternalFailure)
    | some pr =>
      let p := createdProductRow db req pr
      ({ db with products := db.products ++ [p], productAI := db.productAI + 1 }, .ok p)

/-- Request body of PUT /api/products/:id; every field may be absent. -/
structure UpdateProductReq where
  name : JsValue
  description : JsValue
  price : JsValue
  stock : JsValue
  image_url : JsValue
  file : Option String

/-- The UPDATE statement of PUT /api/products/:id applied to an
existing row p: name falls back through the or-or operator, the other
fields through explicit undefined checks; a NaN price or stock makes
the UPDATE fail, caught as a 500. -/
def applyUpdateRow (db : DB) (fs : FS) (id : Nat) (p : Product) (req : UpdateProductReq) :
    DB × FS × Except ApiError Product :=
  let finalImageUrl : Option String :=
    match req.file with
    | some f => some f
    | none =>
      match req.image_url with
      | .undefined => p.image_url
      | v => jsToOptStr v
  let newName : String := if truthy req.name then storeString req.name else p.name
  let newDescription : Option String :=
    match req.description with
    | .undefined => p.description
    | v => jsToOptStr v
  let newPrice : Option ℚ :=
    match req.price with
    | .undefined => some p.price
    | v => jsParseFloat v
  let newStock : Option Int :=
    match req.stock with
    | .undefined => some p.stock
    | v => jsParseInt v
  match newPrice, newStock with
  | some pr, some st =>
    let p2 : Product :=
      { id := p.id, name := newName, description := newDescription,
        price := pr, stock := st, image_url := finalImageUrl }
    ({ db with products := db.products.map (fun q => if q.id == id then p2 else q) }, fs, .ok p2)
  | _, _ => (db, fs, .error .InternalFailure)

/-- PUT /api/products/:id — 404 when absent; when a new image is
uploaded the old locally-owned asset is unlinked first (an unlink fault
aborts the whole route through its catch block); then the row is
updated with partial-update semantics. -/
def updateProduct (db : DB) (fs : FS) (id : Nat) (req : UpdateProductReq) :
    DB × FS × Except ApiError Product :=
  match findProduct db id with
  | none => (db, fs, .error .NotFound)
  | some p =>
    match req.file with
    | some _ =>
      match localExistingFile fs p.image_url with
      | some u =>
        if fs.unlinkFails u then (db, fs, .error .InternalFailure)
        else applyUpdateRow db (removeFile fs u) id p req
      | none => applyUpdateRow db fs id p req
    | none => applyUpdateRow db fs id p req

/-- DELETE /api/products/:id — 404 when absent; unlinks a locally-owned
existing asset first (an unlink fault aborts the route through its
catch block, before the row is deleted); then deletes the row and
returns the snapshot. -/
def deleteProduct (db : DB) (fs : FS) (id : Nat) : DB × FS × Except ApiError Product :=
  match findProduct db id with
  | none => (db, fs, .error .NotFound)
  | some p =>
    let db2 : DB := { db with products := db.products.filter (fun q => !(q.id == id)) }
    match localExistingFile fs p.image_url with
    | some u =>
      if fs.unlinkFails u then (db, fs, .error .InternalFailure)
      else (db2, removeFile fs u, .ok p)
    | none => (db2, fs, .ok p)

/-- One line item of a POST /api/orders request. -/
structure ItemReq where
  id : Nat
  name : String
  price : ℚ
  quantity : Int
deriving DecidableEq

/-- Request body of POST /api/orders as the route reads it. -/
structure OrderReq where
  orderNumber : JsValue
  customerName : JsValue
  customerPhone : JsValue
  customerEmail : Option String
  customerAddress : JsValue
  notes : Option String
  paymentMethod : String
  items : Option (List ItemReq)
  subtotal : ℚ
  shipping : ℚ
  total : ℚ

/-- The single validation check of POST /api/orders: bang on the four
required header fields, bang on items and a length-zero test. -/
def orderValidationFails (req : OrderReq) : Bool :=
  !(truthy req.orderNumber) || !(truthy req.customerName) || !(truthy req.customerPhone) ||
  !(truthy req.customerAddress) || req.items.isNone || (req.items.getD []).isEmpty

/-- Whether the i-th SQL statement of a create-order call succeeds
under a connection-loss fault model: none means no fault, some k means
the connection dies before statement k, so statements k and later
throw. Each statement runs in autocommit; there is no transaction. -/
def stmtOk (fault : Option Nat) (i : Nat) : Bool :=
  match fault with
  | none => true
  | some k => i < k

/-- UPDATE products SET stock = GREATEST(0, stock - q) WHERE id = pid,
on the bare row list. -/
def prodDecMap (pid : Nat) (q : Int) (l : List Product) : List Product :=
  l.map (fun p => if p.id == pid then { p with stock := max 0 (p.stock - q) } else p)

/-- The stock decrement of a create-order line item. -/
def decrementStock (db : DB) (pid : Nat) (q : Int) : DB :=
  { db with products := prodDecMap pid q db.products }

/-- INSERT INTO order_items for one line item: the product name and
price are snapshotted from the request, the line total computed as
price times quantity. -/
def insertOrderItem (db : DB) (oid : Nat) (it : ItemReq) : DB :=
  { db with
    order_items := db.order_items ++
      [{ id := db.itemAI, order_id := oid, product_id := it.id, product_name := it.name,
         product_price := it.price, quantity := it.quantity, total := it.price * it.quantity }],
    itemAI := db.itemAI + 1 }

/-- The per-item loop of POST /api/orders: for each item one INSERT
then one stock UPDATE, statements numbered from i; stops at the first
statement the fault model fails, leaving every earlier write applied
(autocommit, no rollback). Returns the store and whether the loop
finished. -/
def insertItemsLoop (fault : Option Nat) (oid : Nat) : Nat → List ItemReq → DB → DB × Bool
  | _, [], db => (db, true)
  | i, it :: rest, db =>
    if !(stmtOk fault i) then (db, false)
    else
      let db1 := insertOrderItem db oid it
      if !(stmtOk fault (i + 1)) then (db1, false)
      else insertItemsLoop fault oid (i + 2) rest (decrementStock db1 it.id it.quantity)

/-- The row the INSERT of POST /api/orders stores: snapshots of the
request fields, status pending, the next auto-increment id. -/
def newOrderRow (db : DB) (req : OrderReq) : Order :=
  { id := db.orderAI, order_number := storeString req.orderNumber,
    customer_name := storeString req.customerName,
    customer_phone := storeString req.customerPhone,
    customer_email := req.customerEmail,
    customer_address := storeString req.customerAddress,
    notes := req.notes, payment_method := req.paymentMethod, status := "pending",
    subtotal := req.subtotal, shipping := req.shipping, total := req.total }

/-- POST /api/orders — validates the header fields, inserts the order
row (statement 0; a duplicate order number violates the UNIQUE key and
throws), then runs the per-item loop (statements 1 and up). Any thrown
statement is caught by the route and surfaced as a 500, with every
write already applied left in place. -/
def createOrder (fault : Option Nat) (db : DB) (req : OrderReq) :
    DB × Except ApiError (Nat × String) :=
  if orderValidationFails req then (db, .error .InvalidInput)
  else if !(stmtOk fault 0) then (db, .error .InternalFailure)
  else if db.orders.any (fun o => o.order_number == storeString req.orderNumber) then
    (db, .error .InternalFailure)
  else
    let db1 : DB :=
      { db with orders := db.orders ++ [newOrderRow db req], orderAI := db.orderAI + 1 }
    let r := insertItemsLoop fault db.orderAI 1 (req.items.getD []) db1
    if r.2 then (r.1, .ok (db.orderAI, storeString req.orderNumber))
    else (r.1, .error .InternalFailure)

/-- The startup retry loop of initializeDatabase: fuel counts the
remaining retries (10 at first), i the attempt index; the oracle says
which attempts succeed. Returns whether a connection was obtained, how
many attempts were made, and the list of sleep durations performed. -/
def initLoop (succeeds : Nat → Bool) : Nat → Nat → Bool × Nat × List Nat
  | 0, _ => (false, 0, [])
  | r + 1, i =>
    if succeeds i then (true, 1, [])
    else if r > 0 then
      let rest := initLoop succeeds r (i + 1)
      (rest.1, rest.2.1 + 1, 5000 :: rest.2.2)
    else (false, 1, [])

/-- initializeDatabase — ten bounded attempts, a fixed 5000 ms sleep
between consecutive attempts. -/
def initializeDatabase (succeeds : Nat → Bool) : Bool × Nat × List Nat :=
  initLoop succeeds 10 0

/-- Observable trace of startServer: the bootstrap outcome and whether
app.listen was reached. -/
structure ServerTrace where
  dbConnected : Bool
  attempts : Nat
  sleeps : List Nat
  listened : Bool
deriving DecidableEq

/-- startServer — awaits the bootstrap and then always calls
app.listen, connected or not. -/
def startServer (succeeds : Nat → Bool) : ServerTrace :=
  let r := initializeDatabase succeeds
  { dbConnected := r.1, attempts := r.2.1, sleeps := r.2.2, listened := true }

/-- A concrete catalog row used by the concrete scenarios below. -/
def prodW : Product :=
  { id := 1, name := "Widget", description := some "", price := 10.5, stock := 5,
    image_url := some "img.png" }

/-- A one-product store with fresh auto-increment counters. -/
def dbP : DB :=
  { products := [prodW], orders := [], order_items := [], productAI := 2, orderAI := 1,
    itemAI := 1 }

/-- An image directory holding the asset of prodW, whose unlinks all
succeed. -/
def fsOk : FS := { files := ["img.png"], unlinkFails := fun _ => false }

/-- The same directory under a fault model where unlinking the asset of
prodW throws. -/
def fsBad : FS := { files := ["img.png"], unlinkFails := fun f => f == "img.png" }

/-- A line item asking for ten units of prodW (more than its stock). -/
def itemW : ItemReq := { id := 1, name := "Widget", price := 10.5, quantity := 10 }

/-- A create-order request with every required header field present. -/
def reqOrder (its : Option (List ItemReq)) : OrderReq :=
  { orderNumber := .str "CMD-1", customerName := .str "Alice",
    customerPhone := .str "5551234", customerEmail := none,
    customerAddress := .str "1 Main Street", notes := none, paymentMethod := "cash",
    items := its, subtotal := 105, shipping := 0, total := 105 }

/-- A line item with quantity zero, which the route never validates. -/
def itemQ0 : ItemReq := { id := 1, name := "Widget", price := 10.5, quantity := 0 }

/-- A stored order row used by the status and deletion scenarios. -/
def orderO : Order :=
  { id := 1, order_number := "CMD-0", customer_name := "Bob", customer_phone := "5550000",
    customer_email := none, customer_address := "2 High Street", notes := none,
    payment_method := "cash", status := "pending", subtotal := 10, shipping := 0, total := 10 }

/-- A store holding orderO and no products. -/
def dbO : DB :=
  { products := [], orders := [orderO], order_items := [], productAI := 1, orderAI := 2,
    itemAI := 1 }

/-- A stored line item of orderO referencing prodW. -/
def itemRowA : OrderItem :=
  { id := 1, order_id := 1, product_id := 1, product_name := "Widget", product_price := 10.5,
    quantity := 2, total := 21 }

/-- A store holding prodW, orderO and its line item. -/
def dbC8 : DB :=
  { products := [prodW], orders := [orderO], order_items := [itemRowA], productAI := 2,
    orderAI := 2, itemAI := 2 }

/-- A product-update request with every field absent (the empty
request body). -/
def emptyUpdateReq : UpdateProductReq :=
  { name := .undefined, description := .undefined, price := .undefined, stock := .undefined,
    image_url := .undefined, file := none }

/-- A product-create request whose stock field is the non-numeric
string abc. -/
def reqStockAbc : CreateProductReq :=
  { name := .str "Widget", description := .undefined, price := .num 10,
    stock := .str "abc", image_url := .undefined, file := none }

/-- A product-create request whose price field is the non-numeric
string abc. -/
def reqBadPrice : CreateProductReq :=
  { name := .str "Widget", description := .undefined, price := .str "abc",
    stock := .num 3, image_url := .undefined, file := none }

/-- find? at the head when the predicate holds there. -/
theorem find?_cons_true {α : Type} (p : α → Bool) (a : α) (l : List α) (h : p a = true) :
    (a :: l).find? p = some a := by
  simp [List.find?, h]

/-- find? skips a head the predicate rejects. -/
theorem find?_cons_false {α : Type} (p : α → Bool) (a : α) (l : List α) (h : p a = false) :
    (a :: l).find? p = l.find? p := by
  simp [List.find?, h]

/-- The row find? returns satisfies the key equation it searched for. -/
theorem find?_found_eq {α : Type} (key : α → Nat) (k : Nat) (l : List α) (a : α)
    (h : l.find? (fun x => key x == k) = some a) : (key a == k) = true := by
  have h2 := List.find?_some h
  simpa using h2

/-- find? after a keyed in-place map: updating the rows whose key is k
commutes with looking up the first row whose key is k2, because the
update preserves keys. -/
theorem find?_map_keyed {α : Type} (key : α → Nat) (t : α → α) (k k2 : Nat)
    (hkey : ∀ a, key (t a) = key a) :
    ∀ l : List α,
      (l.map (fun a => if key a == k then t a else a)).find? (fun a => key a == k2)
      = (l.find? (fun a => key a == k2)).map (fun a => if key a == k then t a else a)
  | [] => rfl
  | a :: l => by
    have hb : key (if key a == k then t a else a) = key a := by
      by_cases h : (key a == k) = true
      · rw [if_pos h]
        exact hkey a
      · rw [if_neg h]
    rw [List.map_cons]
    by_cases hp : (key a == k2) = true
    · rw [find?_cons_true (fun x => key x == k2) (if key a == k then t a else a)
          (l.map (fun a => if key a == k then t a else a))
          (show (key (if key a == k then t a else a) == k2) = true by rw [hb]; exact hp),
        find?_cons_true (fun x => key x == k2) a l hp, Option.map_some']
    · have hp2 : (key a == k2) = false := by simpa using hp
      rw [find?_cons_false (fun x => key x == k2) (if key a == k then t a else a)
          (l.map (fun a => if key a == k then t a else a))
          (show (key (if key a == k then t a else a) == k2) = false by rw [hb]; exact hp2),
        find?_cons_false (fun x => key x == k2) a l hp2]
      exact find?_map_keyed key t k k2 hkey l

/-- The stock-decrement UPDATE commutes with row lookup. -/
theorem prodDecMap_find (l : List Product) (pid tid : Nat) (q : Int) :
    (prodDecMap pid q l).find? (fun p => p.id == tid)
    = (l.find? (fun p => p.id == tid)).map
        (fun p => if p.id == pid then { p with stock := max 0 (p.stock - q) } else p) :=
  find?_map_keyed Product.id (fun p => { p with stock := max 0 (p.stock - q) }) pid tid
    (fun _ => rfl) l

/-- A decrement aimed at another product id leaves a lookup unchanged. -/
theorem prodDecMap_find_ne (l : List Product) (pid tid : Nat) (q : Int) (h : pid ≠ tid) :
    (prodDecMap pid q l).find? (fun p => p.id == tid) = l.find? (fun p => p.id == tid) := by
  rw [prodDecMap_find]
  cases hf : l.find? (fun p => p.id == tid) with
  | none => rfl
  | some p =>
    have hp : p.id = tid := by simpa using List.find?_some hf
    have htp : ¬tid = pid := fun hh => h hh.symm
    have hpp : ¬p.id = pid := by rw [hp]; exact htp
    simp [hpp]

/-- A decrement aimed at the looked-up product id clamps its stock. -/
theorem prodDecMap_find_eq (l : List Product) (pid : Nat) (q : Int) :
    (prodDecMap pid q l).find? (fun p => p.id == pid)
    = (l.find? (fun p => p.id == pid)).map
        (fun p => { p with stock := max 0 (p.stock - q) }) := by
  rw [prodDecMap_find]
  cases hf : l.find? (fun p => p.id == pid) with
  | none => rfl
  | some p =>
    have hp : p.id = pid := by simpa using List.find?_some hf
    simp [hp]

/-- Folding decrements over items none of which target tid leaves a
lookup at tid unchanged. -/
theorem foldl_dec_find_notmem (items : List ItemReq) (tid : Nat)
    (h : ∀ j ∈ items, j.id ≠ tid) :
    ∀ l : List Product,
      (items.foldl (fun ps j => prodDecMap j.id j.quantity ps) l).find? (fun p => p.id == tid)
      = l.find? (fun p => p.id == tid) := by
  induction items with
  | nil => intro l; rfl
  | cons j rest ih =>
    intro l
    rw [List.foldl_cons, ih (fun x hx => h x (List.mem_cons_of_mem _ hx)),
      prodDecMap_find_ne _ _ _ _ (h j (List.mem_cons_self _ _))]

/-- Folding the decrements of a duplicate-free item list: the lookup of
one item's product sees exactly that item's clamped decrement. -/
theorem foldl_dec_find_nodup (items : List ItemReq) (it : ItemReq)
    (hmem : it ∈ items) (hnodup : (items.map ItemReq.id).Nodup) :
    ∀ l : List Product,
      (items.foldl (fun ps j => prodDecMap j.id j.quantity ps) l).find? (fun p => p.id == it.id)
      = (l.find? (fun p => p.id == it.id)).map
          (fun p => { p with stock := max 0 (p.stock - it.quantity) }) := by
  induction items with
  | nil => cases hmem
  | cons j rest ih =>
    intro l
    have hnd : (∀ x ∈ rest, ¬x.id = j.id) ∧ (List.map ItemReq.id rest).Nodup := by
      simpa using hnodup
    rcases List.mem_cons.mp hmem with heq | hrest
    · subst heq
      have hni : ∀ x ∈ rest, x.id ≠ it.id := fun x hx => hnd.1 x hx
      rw [List.foldl_cons, foldl_dec_find_notmem rest it.id hni, prodDecMap_find_eq]
    · have hji : j.id ≠ it.id := fun he => hnd.1 it hrest he.symm
      rw [List.foldl_cons, ih hrest hnd.2, prodDecMap_find_ne _ _ _ _ hji]

/-- The status UPDATE of setStatus commutes with row lookup. -/
theorem orders_setStatus_find (l : List Order) (id : Nat) (st : String) :
    (l.map (fun o => if o.id == id then { o with status := st } else o)).find?
      (fun o => o.id == id)
    = (l.find? (fun o => o.id == id)).map
        (fun o => if o.id == id then { o with status := st } else o) :=
  find?_map_keyed Order.id (fun o => { o with status := st }) id id (fun _ => rfl) l

/-- A clamped decrement never makes a stock negative. -/
theorem prodDecMap_nonneg (pid : Nat) (q : Int) (l : List Product)
    (h : ∀ p ∈ l, 0 ≤ p.stock) : ∀ p ∈ prodDecMap pid q l, 0 ≤ p.stock := by
  intro p hp
  rcases List.mem_map.mp hp with ⟨a, ha, rfl⟩
  by_cases hb : a.id == pid
  · simp only [hb, if_true]
    exact le_max_left 0 (a.stock - q)
  · simp only [hb, if_false, Bool.false_eq_true, ite_false]
    exact h a ha

/-- Folded clamped decrements never make a stock negative. -/
theorem foldl_dec_nonneg (items : List ItemReq) :
    ∀ l : List Product, (∀ p ∈ l, 0 ≤ p.stock) →
      ∀ p ∈ items.foldl (fun ps j => prodDecMap j.id j.quantity ps) l, 0 ≤ p.stock := by
  induction items with
  | nil => intro l h; exact h
  | cons j rest ih =>
    intro l h
    rw [List.foldl_cons]
    exact ih _ (prodDecMap_nonneg j.id j.quantity l h)

/-- The per-item loop without a fault finishes, folds the clamped
decrements over the products, and does not touch the orders table. -/
theorem insertItemsLoop_none (oid : Nat) (items : List ItemReq) :
    ∀ (i : Nat) (db : DB),
      (insertItemsLoop none oid i items db).2 = true
      ∧ (insertItemsLoop none oid i items db).1.products
        = items.foldl (fun ps j => prodDecMap j.id j.quantity ps) db.products
      ∧ (insertItemsLoop none oid i items db).1.orders = db.orders := by
  induction items with
  | nil => intro i db; exact ⟨rfl, rfl, rfl⟩
  | cons j rest ih => intro i db; exact ih (i + 2) _

/-- The per-item loop never touches the orders table nor its counter,
whatever the fault model does. -/
theorem insertItemsLoop_orders (fault : Option Nat) (oid : Nat) :
    ∀ (items : List ItemReq) (i : Nat) (db : DB),
      (insertItemsLoop fault oid i items db).1.orders = db.orders := by
  intro items
  induction items with
  | nil => intro i db; rfl
  | cons j rest ih =>
    intro i db
    by_cases h1 : stmtOk fault i
    · by_cases h2 : stmtOk fault (i + 1)
      · simpa [insertItemsLoop, h1, h2] using ih (i + 2) _
      · simp [insertItemsLoop, insertOrderItem, h1, h2]
    · simp [insertItemsLoop, h1]

/-- A fault strictly inside the item statements makes the loop stop
before its end. -/
theorem insertItemsLoop_fault_fails (oid k : Nat) :
    ∀ (items : List ItemReq) (i : Nat) (db : DB), items ≠ [] → k < i + 2 * items.length →
      (insertItemsLoop (some k) oid i items db).2 = false := by
  intro items
  induction items with
  | nil => intro i db h; exact absurd rfl h
  | cons j rest ih =>
    intro i db _ hk
    by_cases h1 : stmtOk (some k) i
    · by_cases h2 : stmtOk (some k) (i + 1)
      · have h1n : i < k := by simpa [stmtOk] using h1
        have h2n : i + 1 < k := by simpa [stmtOk] using h2
        have hrest : rest ≠ [] := by
          intro he
          subst he
          simp at hk
          omega
        have hk2 : k < (i + 2) + 2 * rest.length := by
          simp [List.length_cons] at hk
          omega
        simpa [insertItemsLoop, h1, h2] using ih (i + 2) _ hrest hk2
      · simp [insertItemsLoop, h1, h2]
    · simp [insertItemsLoop, h1]

/-- Rewriting every row keyed id to the row p is the identity when the
only row keyed id already is p. -/
theorem map_update_self (l : List Product) (id : Nat) (p : Product)
    (h : ∀ q ∈ l, q.id = id → q = p) :
    l.map (fun q => if q.id == id then p else q) = l := by
  induction l with
  | nil => rfl
  | cons a l ih =>
    rw [List.map_cons, ih (fun q hq => h q (List.mem_cons_of_mem _ hq))]
    by_cases hb : (a.id == id) = true
    · rw [if_pos hb, h a (List.mem_cons_self a l) (by simpa using hb)]
    · rw [if_neg hb]

/-- find? passes over a first block every element of which the
predicate rejects. -/
theorem find?_append_none {α : Type} (p : α → Bool) (l1 l2 : List α)
    (h : ∀ x ∈ l1, ¬p x = true) :
    (l1 ++ l2).find? p = l2.find? p := by
  induction l1 with
  | nil => rfl
  | cons a l ih =>
    rw [List.cons_append,
      find?_cons_false p a (l ++ l2) (by simpa using h a (List.mem_cons_self a l)),
      ih (fun x hx => h x (List.mem_cons_of_mem _ hx))]

/-- A create-order call whose validation, first statement and UNIQUE
check pass reduces to the per-item loop over the store holding the new
order row. -/
theorem createOrder_reduce (fault : Option Nat) (db : DB) (req : OrderReq)
    (hval : orderValidationFails req = false)
    (hf0 : stmtOk fault 0 = true)
    (hfresh : db.orders.any (fun o => o.order_number == storeString req.orderNumber) = false) :
    createOrder fault db req
    = (let r := insertItemsLoop fault db.orderAI 1 (req.items.getD [])
        { db with orders := db.orders ++ [newOrderRow db req], orderAI := db.orderAI + 1 };
       if r.2 then (r.1, .ok (db.orderAI, storeString req.orderNumber))
       else (r.1, .error .InternalFailure)) := by
  simp [createOrder, hval, hf0, hfresh]

/-- The bootstrap loop with at least one retry left makes between one
and fuel many attempts and sleeps a fixed 5000 ms between consecutive
attempts. -/
theorem initLoop_spec (succeeds : Nat → Bool) :
    ∀ (r i : Nat), 1 ≤ r →
      1 ≤ (initLoop succeeds r i).2.1
      ∧ (initLoop succeeds r i).2.1 ≤ r
      ∧ (initLoop succeeds r i).2.2
        = List.replicate ((initLoop succeeds r i).2.1 - 1) 5000 := by
  intro r
  induction r with
  | zero => intro i h; omega
  | succ n ih =>
    intro i _
    by_cases hs : succeeds i
    · simp [initLoop, hs]
    · by_cases hn : n > 0
      · obtain ⟨ha, hb, hc⟩ := ih (i + 1) hn
        have hrw : initLoop succeeds (n + 1) i
            = ((initLoop succeeds n (i + 1)).1, (initLoop succeeds n (i + 1)).2.1 + 1,
               5000 :: (initLoop succeeds n (i + 1)).2.2) := by
          simp [initLoop, hs, hn]
        rw [hrw]
        dsimp only
        refine ⟨by omega, by omega, ?_⟩
        rw [hc]
        have he : (initLoop succeeds n (i + 1)).2.1 + 1 - 1
            = ((initLoop succeeds n (i + 1)).2.1 - 1) + 1 := by omega
        rw [he, List.replicate_succ]
      · have hn0 : n = 0 := by omega
        subst hn0
        simp [initLoop, hs]

/-- Claim C9: storage bootstrap attempts to open a connection a
bounded number of times (at most 10), sleeping a fixed 5000 ms between
consecutive attempts, the retry loop terminates (initLoop is a total
function), and the request-handling listener is started afterwards
whether or not every attempt failed. -/
theorem startServer_bootstrap_spec (succeeds : Nat → Bool) :
    (startServer succeeds).listened = true
    ∧ 1 ≤ (startServer succeeds).attempts
    ∧ (startServer succeeds).attempts ≤ 10
    ∧ (startServer succeeds).sleeps
      = List.replicate ((startServer succeeds).attempts - 1) 5000 := by
  have h := initLoop_spec succeeds 10 0 (by omega)
  exact ⟨rfl, h.1, h.2.1, h.2.2⟩

/-- Claim C10: in setStatus the enum check runs before the existence
check, so for every id (existing or not) and every status string
outside the enum the call fails with InvalidStatus, never NotFound. -/
theorem setStatus_invalid_beats_notfound (db : DB) (id : Nat) (st : String)
    (h : validStatuses.contains st = false) :
    (setStatus db id st).2 = Except.error ApiError.InvalidStatus
    ∧ (setStatus db id st).2 ≠ Except.error ApiError.NotFound := by
  have h2 : st ∉ validStatuses := by simpa using h
  constructor
  · simp [setStatus, h2]
  · simp [setStatus, h2]

/-- Concrete run of the C10 theorem: unknown status on a store where
the order id does not exist at all. -/
theorem setStatus_invalid_beats_notfound_witness :
    (setStatus dbP 99 "not-a-status").2 = Except.error ApiError.InvalidStatus
    ∧ (setStatus dbP 99 "not-a-status").2 ≠ Except.error ApiError.NotFound :=
  setStatus_invalid_beats_notfound dbP 99 "not-a-status" (by decide)

/-- Claim C4: setStatus validates the new status against the six enum
values before writing; an invalid status fails with InvalidStatus and
leaves the store (hence the order status) unchanged; any valid status
replaces any current status with no transition constraint, and on
success the new status is returned. -/
theorem setStatus_spec (db : DB) (id : Nat) (st : String) :
    (validStatuses.contains st = false →
      (setStatus db id st).2 = Except.error ApiError.InvalidStatus
      ∧ (setStatus db id st).1 = db)
    ∧ (validStatuses.contains st = true →
      (findOrder db id = none →
        (setStatus db id st).2 = Except.error ApiError.NotFound
        ∧ (setStatus db id st).1 = db)
      ∧ (∀ o, findOrder db id = some o →
        (setStatus db id st).2 = Except.ok st
        ∧ findOrder (setStatus db id st).1 id = some { o with status := st })) := by
  constructor
  · intro h
    have h2 : st ∉ validStatuses := by simpa using h
    exact ⟨by simp [setStatus, h2], by simp [setStatus, h2]⟩
  · intro h
    have h2 : st ∈ validStatuses := by simpa using h
    constructor
    · intro hn
      exact ⟨by simp [setStatus, h2, hn], by simp [setStatus, h2, hn]⟩
    · intro o ho
      have hid : (o.id == id) = true := find?_found_eq Order.id id db.orders o ho
      have hoo : db.orders.find? (fun x => x.id == id) = some o := ho
      constructor
      · simp [setStatus, h2, ho]
      · unfold setStatus
        rw [if_neg (show ¬(!validStatuses.contains st) = true by rw [h]; simp),
          show findOrder db id = some o from ho]
        show (db.orders.map (fun x => if x.id == id then { x with status := st } else x)).find?
            (fun x => x.id == id) = some { o with status := st }
        rw [orders_setStatus_find, hoo, Option.map_some', if_pos hid]

/-- Concrete run of the C4 theorem: a pending order moved straight to
shipped. -/
theorem setStatus_spec_witness :
    (setStatus dbO 1 "shipped").2 = Except.ok "shipped"
    ∧ findOrder (setStatus dbO 1 "shipped").1 1 = some { orderO with status := "shipped" } := by
  have h := (setStatus_spec dbO 1 "shipped").2 (by decide)
  exact h.2 orderO (by decide)

/-- Claim C8: deleteOrder removes the order row and, through the
ON DELETE CASCADE key, exactly its line items, leaving every product
row (hence every stock) unchanged; deleteProduct never removes or
alters order rows or historical order-item rows. -/
theorem deleteOrder_cascade_frame (db : DB) (fs : FS) (id pid : Nat) (o : Order)
    (hfind : findOrder db id = some o) :
    (deleteOrder db id).2 = Except.ok o
    ∧ findOrder (deleteOrder db id).1 id = none
    ∧ (deleteOrder db id).1.order_items
      = db.order_items.filter (fun it => !(it.order_id == id))
    ∧ (deleteOrder db id).1.products = db.products
    ∧ (deleteProduct db fs pid).1.order_items = db.order_items
    ∧ (deleteProduct db fs pid).1.orders = db.orders := by
  refine ⟨by simp [deleteOrder, hfind], ?_, by simp [deleteOrder, hfind],
    by simp [deleteOrder, hfind], ?_, ?_⟩
  · have hfind2 : db.orders.find? (fun x => x.id == id) = some o := hfind
    simp only [deleteOrder, findOrder, hfind2]
    rw [List.find?_eq_none]
    intro x hx
    have h2 := (List.mem_filter.mp hx).2
    simp at h2 ⊢
    exact h2
  · unfold deleteProduct
    cases hp : findProduct db pid with
    | none => rfl
    | some p =>
      cases hl : localExistingFile fs p.image_url with
      | none => simp [hl]
      | some u =>
        by_cases hu : fs.unlinkFails u <;> simp [hl, hu]
  · unfold deleteProduct
    cases hp : findProduct db pid with
    | none => rfl
    | some p =>
      cases hl : localExistingFile fs p.image_url with
      | none => simp [hl]
      | some u =>
        by_cases hu : fs.unlinkFails u <;> simp [hl, hu]

/-- Concrete run of the C8 theorem: deleting the only order removes its
line item, keeps the product stock, and deleting the product keeps the
historical line item. -/
theorem deleteOrder_cascade_frame_witness :
    (deleteOrder dbC8 1).2 = Except.ok orderO
    ∧ (deleteOrder dbC8 1).1.order_items = []
    ∧ (deleteOrder dbC8 1).1.products = dbC8.products
    ∧ (deleteProduct dbC8 fsOk 1).1.order_items = dbC8.order_items := by
  have h := deleteOrder_cascade_frame dbC8 fsOk 1 1 orderO (by decide)
  refine ⟨h.1, ?_, h.2.2.2.1, h.2.2.2.2.1⟩
  rw [h.2.2.1]
  decide

/-- Claim C2: for every product referenced by a line item of a
successful create-order call (one line item per product), the stock
afterwards equals max(0, stock before minus quantity); stock never
becomes negative; and the order is created successfully whatever the
available stock, the clamp absorbing any oversell. -/
theorem createOrder_stock_clamped (db : DB) (req : OrderReq) (items : List ItemReq)
    (hitems : req.items = some items)
    (hval : orderValidationFails req = false)
    (hfresh : db.orders.any (fun o => o.order_number == storeString req.orderNumber) = false)
    (hnodup : (items.map ItemReq.id).Nodup) :
    (createOrder none db req).2 = Except.ok (db.orderAI, storeString req.orderNumber)
    ∧ (∀ it ∈ items, ∀ p, findProduct db it.id = some p →
        findProduct (createOrder none db req).1 it.id
          = some { p with stock := max 0 (p.stock - it.quantity) })
    ∧ ((∀ p ∈ db.products, 0 ≤ p.stock) →
        ∀ p ∈ (createOrder none db req).1.products, 0 ≤ p.stock) := by
  have hred := createOrder_reduce none db req hval rfl hfresh
  rw [hitems] at hred
  set db1 : DB :=
    { db with orders := db.orders ++ [newOrderRow db req], orderAI := db.orderAI + 1 }
    with hdb1
  obtain ⟨hfin, hprod, -⟩ := insertItemsLoop_none db.orderAI items 1 db1
  have hmain : createOrder none db req
      = ((insertItemsLoop none db.orderAI 1 items db1).1,
         Except.ok (db.orderAI, storeString req.orderNumber)) := by
    rw [hred]
    simp only [Option.getD_some, hfin, if_true]
  refine ⟨by rw [hmain], ?_, ?_⟩
  · intro it hit p hp
    have hp2 : db.products.find? (fun x => x.id == it.id) = some p := hp
    have hgoal : (items.foldl (fun ps j => prodDecMap j.id j.quantity ps) db.products).find?
        (fun x => x.id == it.id) = some { p with stock := max 0 (p.stock - it.quantity) } := by
      rw [foldl_dec_find_nodup items it hit hnodup db.products, hp2, Option.map_some']
    rw [hmain]
    show ((insertItemsLoop none db.orderAI 1 items db1).1.products).find?
        (fun x => x.id == it.id) = some { p with stock := max 0 (p.stock - it.quantity) }
    rw [hprod]
    exact hgoal
  · intro hpos p hp
    rw [hmain] at hp
    have hp2 : p ∈ (insertItemsLoop none db.orderAI 1 items db1).1.products := hp
    rw [hprod] at hp2
    exact foldl_dec_nonneg items db.products hpos p hp2

/-- Concrete run of the C2 theorem: ordering ten Widgets against a
stock of five succeeds and clamps the stock to zero. -/
theorem createOrder_stock_clamped_witness :
    (createOrder none dbP (reqOrder (some [itemW]))).2 = Except.ok (1, "CMD-1")
    ∧ findProduct (createOrder none dbP (reqOrder (some [itemW]))).1 1
      = some { prodW with stock := 0 } := by
  have h := createOrder_stock_clamped dbP (reqOrder (some [itemW])) [itemW] rfl
    (by decide) (by decide) (by decide)
  refine ⟨h.1, ?_⟩
  have h2 := h.2.1 itemW (List.mem_singleton.mpr rfl) prodW rfl
  exact h2.trans rfl

/-- Claim C1 (amended): createOrder runs its writes in autocommit with
no surrounding transaction, so a storage fault after the order row was
written (statement index k at least 1, striking before the per-item
statements are done) surfaces an InternalFailure but leaves the order
row persisted: a subsequent getOrder for that order finds it instead
of returning NotFound. -/
theorem createOrder_partial_state (db : DB) (req : OrderReq) (items : List ItemReq) (k : Nat)
    (hitems : req.items = some items)
    (hval : orderValidationFails req = false)
    (hfresh : db.orders.any (fun o => o.order_number == storeString req.orderNumber) = false)
    (hwf : ∀ o ∈ db.orders, o.id < db.orderAI)
    (hk1 : 1 ≤ k) (hk2 : k < 1 + 2 * items.length) :
    (createOrder (some k) db req).2 = Except.error ApiError.InternalFailure
    ∧ findOrder (createOrder (some k) db req).1 db.orderAI = some (newOrderRow db req)
    ∧ getOrder (createOrder (some k) db req).1 db.orderAI
      ≠ Except.error ApiError.NotFound := by
  have hf0 : stmtOk (some k) 0 = true := by
    simp only [stmtOk, decide_eq_true_eq]
    omega
  have hred := createOrder_reduce (some k) db req hval hf0 hfresh
  rw [hitems] at hred
  have hne : items ≠ [] := by
    intro he
    rw [orderValidationFails, hitems, he] at hval
    simp at hval
  set db1 : DB :=
    { db with orders := db.orders ++ [newOrderRow db req], orderAI := db.orderAI + 1 }
    with hdb1
  have hfail := insertItemsLoop_fault_fails db.orderAI k items 1 db1 hne hk2
  have hords := insertItemsLoop_orders (some k) db.orderAI items 1 db1
  have hmain : createOrder (some k) db req
      = ((insertItemsLoop (some k) db.orderAI 1 items db1).1,
         Except.error ApiError.InternalFailure) := by
    rw [hred]
    simp only [Option.getD_some, hfail, Bool.false_eq_true, if_false]
  have horow : findOrder (insertItemsLoop (some k) db.orderAI 1 items db1).1 db.orderAI
      = some (newOrderRow db req) := by
    show ((insertItemsLoop (some k) db.orderAI 1 items db1).1.orders).find?
        (fun o => o.id == db.orderAI) = some (newOrderRow db req)
    rw [hords]
    show ((db.orders ++ [newOrderRow db req]).find? (fun o => o.id == db.orderAI))
        = some (newOrderRow db req)
    rw [find?_append_none _ db.orders [newOrderRow db req] (by
      intro o ho2
      have h3 := hwf o ho2
      simp only [beq_iff_eq]
      omega)]
    exact find?_cons_true _ _ _ (by simp [newOrderRow])
  refine ⟨by rw [hmain], by rw [hmain]; exact horow, ?_⟩
  rw [hmain]
  simp [getOrder, horow]

/-- Counterexample to claim C1 as stated: with the connection lost
right after the order-row INSERT (fault index 1), the call fails, yet
getOrder then returns the orphaned order with no items rather than
NotFound. -/
theorem createOrder_partial_counterexample :
    (createOrder (some 1) dbP (reqOrder (some [itemW]))).2
      = Except.error ApiError.InternalFailure
    ∧ getOrder (createOrder (some 1) dbP (reqOrder (some [itemW]))).1 1
      = Except.ok (newOrderRow dbP (reqOrder (some [itemW])), [])
    ∧ getOrder (createOrder (some 1) dbP (reqOrder (some [itemW]))).1 1
      ≠ Except.error ApiError.NotFound := by
  refine ⟨rfl, rfl, ?_⟩
  intro h
  exact Except.noConfusion h

/-- Concrete run of the amended C1 theorem at fault index 1. -/
theorem createOrder_partial_state_witness :
    findOrder (createOrder (some 1) dbP (reqOrder (some [itemW]))).1 1
      = some (newOrderRow dbP (reqOrder (some [itemW])))
    ∧ getOrder (createOrder (some 1) dbP (reqOrder (some [itemW]))).1 1
      ≠ Except.error ApiError.NotFound := by
  have h := createOrder_partial_state dbP (reqOrder (some [itemW])) [itemW] 1 rfl
    (by decide) (by decide) (by decide) (by decide) (by decide)
  exact ⟨h.2.1, h.2.2⟩

/-- Claim C3 (amended): createOrder rejects with InvalidInput exactly
the requests failing the single header check (missing order number,
customer name, phone, address, or an absent or empty item list), and
that check runs before any write, leaving the store untouched; the
route performs no per-line-item validation at all, so no item field
can cause an InvalidInput. -/
theorem createOrder_validation_spec (fault : Option Nat) (db : DB) (req : OrderReq) :
    ((createOrder fault db req).2 = Except.error ApiError.InvalidInput
      ↔ orderValidationFails req = true)
    ∧ (orderValidationFails req = true → (createOrder fault db req).1 = db) := by
  by_cases hv : orderValidationFails req = true
  · exact ⟨⟨fun _ => hv, fun _ => by simp [createOrder, hv]⟩, fun _ => by simp [createOrder, hv]⟩
  · have hgen : ∀ x : DB × Bool,
        (if x.2 then (x.1, (Except.ok (db.orderAI, storeString req.orderNumber) :
              Except ApiError (Nat × String)))
          else (x.1, Except.error ApiError.InternalFailure)).2
          ≠ Except.error ApiError.InvalidInput := by
      intro x
      by_cases hx : x.2 = true
      · rw [if_pos hx]
        simp
      · rw [if_neg hx]
        simp
    have hne : (createOrder fault db req).2 ≠ Except.error ApiError.InvalidInput := by
      unfold createOrder
      rw [if_neg hv]
      by_cases h0 : (!stmtOk fault 0) = true
      · rw [if_pos h0]
        simp
      · rw [if_neg h0]
        by_cases hd : (db.orders.any
            (fun o => o.order_number == storeString req.orderNumber)) = true
        · rw [if_pos hd]
          simp
        · rw [if_neg hd]
          exact hgen _
    exact ⟨⟨fun hc => absurd hc hne, fun hh => absurd hh hv⟩, fun hh => absurd hh hv⟩

/-- Concrete run of the C3 theorem: a request with no item list at all
is rejected with InvalidInput and the store is untouched. -/
theorem createOrder_validation_spec_witness :
    ((createOrder none dbP (reqOrder none)).2 = Except.error ApiError.InvalidInput
      ↔ orderValidationFails (reqOrder none) = true)
    ∧ (createOrder none dbP (reqOrder none)).1 = dbP := by
  have h := createOrder_validation_spec none dbP (reqOrder none)
  exact ⟨h.1, h.2 (by decide)⟩

/-- Counterexample to claim C3 as stated: a line item with quantity
zero (not positive) passes the route untouched; the order is created
rather than rejected with InvalidInput. -/
theorem createOrder_item_validation_counterexample :
    (createOrder none dbP (reqOrder (some [itemQ0]))).2 = Except.ok (1, "CMD-1")
    ∧ (createOrder none dbP (reqOrder (some [itemQ0]))).2
      ≠ Except.error ApiError.InvalidInput := by
  refine ⟨rfl, ?_⟩
  intro h
  exact Except.noConfusion h

/-- Claim C5 (amended): for an existing product whose image reference
is a locally-owned asset present on disk, delete first unlinks the
asset; if the unlink throws, the route catch aborts the whole call
with InternalFailure and the row is NOT deleted; only when the unlink
succeeds (or there is nothing to unlink) is the row deleted and the
snapshot returned. -/
theorem deleteProduct_spec (db : DB) (fs : FS) (id : Nat) (p : Product)
    (hfind : findProduct db id = some p) :
    (∀ u, localExistingFile fs p.image_url = some u →
      (fs.unlinkFails u = true →
        deleteProduct db fs id = (db, fs, Except.error ApiError.InternalFailure))
      ∧ (fs.unlinkFails u = false →
        deleteProduct db fs id
          = ({ db with products := db.products.filter (fun q => !(q.id == id)) },
             removeFile fs u, Except.ok p)))
    ∧ (localExistingFile fs p.image_url = none →
      deleteProduct db fs id
        = ({ db with products := db.products.filter (fun q => !(q.id == id)) },
           fs, Except.ok p)) := by
  constructor
  · intro u hu
    constructor
    · intro hf
      simp [deleteProduct, hfind, hu, hf]
    · intro hf
      simp [deleteProduct, hfind, hu, hf]
  · intro hn
    simp [deleteProduct, hfind, hn]

/-- Concrete run of the amended C5 theorem: with a working unlink the
row is deleted, the asset removed and the snapshot returned. -/
theorem deleteProduct_spec_witness :
    deleteProduct dbP fsOk 1
      = ({ dbP with products := dbP.products.filter (fun q => !(q.id == 1)) },
         removeFile fsOk "img.png", Except.ok prodW) := by
  have h := deleteProduct_spec dbP fsOk 1 prodW rfl
  exact (h.1 "img.png" rfl).2 rfl

/-- Counterexample to claim C5 as stated: when the unlink throws, the
whole delete fails with InternalFailure and the row is still there,
instead of the failure being logged and the row deleted. -/
theorem deleteProduct_unlink_counterexample :
    (deleteProduct dbP fsBad 1).2.2 = Except.error ApiError.InternalFailure
    ∧ findProduct (deleteProduct dbP fsBad 1).1 1 = some prodW := ⟨rfl, rfl⟩

/-- Claim C6 (amended): product update keeps every omitted field, and
update with an empty request returns the product unchanged and leaves
the store as it was; a present-but-empty description is stored as the
empty value, but a present-but-empty name falls through the or-or
fallback and keeps the existing name, and a present-but-empty price
parses to NaN and fails the write with InternalFailure. -/
theorem updateProduct_partial_semantics (db : DB) (fs : FS) (id : Nat) (p : Product)
    (hfind : findProduct db id = some p) :
    (updateProduct db fs id emptyUpdateReq).2.2 = Except.ok p
    ∧ ((∀ q ∈ db.products, q.id = id → q = p) →
        (updateProduct db fs id emptyUpdateReq).1 = db)
    ∧ (updateProduct db fs id { emptyUpdateReq with name := JsValue.str "" }).2.2
      = Except.ok p
    ∧ (updateProduct db fs id { emptyUpdateReq with description := JsValue.str "" }).2.2
      = Except.ok { p with description := some "" }
    ∧ (updateProduct db fs id { emptyUpdateReq with price := JsValue.str "" }).2.2
      = Except.error ApiError.InternalFailure := by
  have hred : ∀ req : UpdateProductReq, req.file = none →
      updateProduct db fs id req = applyUpdateRow db fs id p req := by
    intro req hf
    unfold updateProduct
    rw [hfind, hf]
  refine ⟨?_, ?_, ?_, ?_, ?_⟩
  · rw [hred emptyUpdateReq rfl]
    rfl
  · intro hq
    rw [hred emptyUpdateReq rfl]
    show { db with products := db.products.map (fun q => if q.id == id then p else q) } = db
    rw [map_update_self db.products id p hq]
  · rw [hred _ rfl]
    rfl
  · rw [hred _ rfl]
    rfl
  · rw [hred _ rfl]
    rfl

/-- Concrete run of the amended C6 theorem: the empty request returns
the Widget unchanged and leaves the store untouched. -/
theorem updateProduct_partial_semantics_witness :
    (updateProduct dbP fsOk 1 emptyUpdateReq).2.2 = Except.ok prodW
    ∧ (updateProduct dbP fsOk 1 emptyUpdateReq).1 = dbP := by
  have h := updateProduct_partial_semantics dbP fsOk 1 prodW rfl
  exact ⟨h.1, h.2.1 (fun q hq _ => List.mem_singleton.mp hq)⟩

/-- Counterexample to claim C6 as stated: a present-but-empty name is
not stored; the existing name Widget survives the update. -/
theorem updateProduct_empty_name_counterexample :
    (updateProduct dbP fsOk 1 { emptyUpdateReq with name := JsValue.str "" }).2.2
      = Except.ok prodW
    ∧ prodW.name = "Widget"
    ∧ prodW.name ≠ "" := ⟨rfl, rfl, by decide⟩

/-- Claim C7 (amended): product create rejects with InvalidInput
exactly when name or price is missing (falsy), before any write; a
present but non-numeric price parses to NaN and fails at the INSERT
with InternalFailure (not InvalidInput), the store untouched; on
success the row is appended with stock coerced by parseInt-or-zero,
so a non-numeric stock is silently stored as zero rather than
rejected. -/
theorem createProduct_coercion_spec (db : DB) (req : CreateProductReq) :
    ((truthy req.name && truthy req.price) = false →
      createProduct db req = (db, Except.error ApiError.InvalidInput))
    ∧ ((truthy req.name && truthy req.price) = true → jsParseFloat req.price = none →
      createProduct db req = (db, Except.error ApiError.InternalFailure))
    ∧ ((truthy req.name && truthy req.price) = true → ∀ pr, jsParseFloat req.price = some pr →
      createProduct db req
        = ({ db with
              products := db.products ++ [createdProductRow db req pr],
              productAI := db.productAI + 1 },
           Except.ok (createdProductRow db req pr)))
    ∧ (∀ pr, (createdProductRow db req pr).stock = (jsParseInt req.stock).getD 0) := by
  refine ⟨fun h => ?_, fun h hn => ?_, fun h pr hp => ?_, fun pr => rfl⟩
  · simp [createProduct, h]
  · simp [createProduct, h, hn]
  · simp [createProduct, h, hp]

/-- Concrete runs of the amended C7 theorem: a non-numeric price fails
with InternalFailure and no write, while a numeric price with a
non-numeric stock is accepted and stored with stock zero. -/
theorem createProduct_coercion_spec_witness :
    createProduct dbP reqBadPrice = (dbP, Except.error ApiError.InternalFailure)
    ∧ (createProduct dbP reqStockAbc).2 = Except.ok (createdProductRow dbP reqStockAbc 10)
    ∧ (createdProductRow dbP reqStockAbc 10).stock = 0 := by
  have h1 := (createProduct_coercion_spec dbP reqBadPrice).2.1 (by decide) rfl
  have h2 := (createProduct_coercion_spec dbP reqStockAbc).2.2.1 (by decide) 10 rfl
  refine ⟨h1, ?_, rfl⟩
  rw [h2]

/-- Counterexample to claim C7 as stated: the non-numeric stock string
abc is not rejected with InvalidInput; the row is written with stock
coerced to zero. -/
theorem createProduct_nonnumeric_counterexample :
    (createProduct dbP reqStockAbc).2 = Except.ok (createdProductRow dbP reqStockAbc 10)
    ∧ (createdProductRow dbP reqStockAbc 10).stock = 0
    ∧ (createProduct dbP reqStockAbc).1.products
      = dbP.products ++ [createdProductRow dbP reqStockAbc 10]
    ∧ (createProduct dbP reqStockAbc).2 ≠ Except.error ApiError.InvalidInput := by
  refine ⟨rfl, rfl, rfl, ?_⟩
  intro h
  exact Except.noConfusion h

end Ecom
